import Mathlib

/-!
Shallow embedding of the book-availability tracker dashboard
(`frontend/src/App.js`) and a spec-level model of its Notification Engine,
with proofs of behavioural properties of both.

The component state, the request each `fetch` call site issues, and each
event handler are translated into plain Lean functions.  Network outcomes
(success, HTTP failure, thrown rejection) are passed in explicitly through
`FetchEnv`, so every handler is a total function from its inputs and the
network outcome to the next state and the list of requests it issued.
-/

namespace BookTracker

/-- HTTP method of a request issued through `fetch`. -/
inductive Method
  | GET
  | POST
  | PUT
  | DELETE
deriving DecidableEq

/-- One entry of `sitesToTrack` inside `addBook`: the object built for each
enabled fixed-site checkbox. -/
structure SitePayload where
  name : String
  url : String
  last_check : Option String
  listings_found : Nat
deriving DecidableEq

/-- The add-book form state (`newBook`): title, author, one checkbox per
fixed site, the search-fallback flag and the custom-site list. -/
structure NewBookForm where
  title : String
  author : String
  nadirkitap : Bool
  kitantik : Bool
  halkkitabevi : Bool
  enable_google_search : Bool
  custom_sites : List String
deriving DecidableEq

/-- The JSON body `bookData` posted by `addBook`. -/
structure BookData where
  title : String
  author : String
  sites : List SitePayload
  custom_sites : List String
  enable_google_search : Bool
  is_active : Bool
deriving DecidableEq

/-- Process settings held in component state (`check_interval_hours`). -/
structure Settings where
  check_interval_hours : Int
deriving DecidableEq

/-- A book as rendered by the books tab. -/
structure Book where
  id : String
  title : String
  author : String
  sites : List SitePayload
  custom_sites : List String
  last_checked : Option String
  is_active : Bool
deriving DecidableEq

/-- A notification as rendered by the notifications tab. -/
structure Notification where
  id : String
  book_title : String
  message : String
  listing_url : String
  read : Bool
  created_at : String
deriving DecidableEq

/-- A discovered listing as rendered under a book. -/
structure Listing where
  title : String
  site_name : String
  price : String
  url : String
  found_at : String
deriving DecidableEq

/-- Every request the component can issue, one constructor per `fetch` call
site in `App.js`, plus `putSettings`: the settings-update request the
interval select would issue if its handler existed (see `settingsOnChange`,
whose update branch is modelled from the spec since the source never
defines it). -/
inductive ApiRequest
  | getBooks
  | getNotifications
  | getSettings
  | getListings (bookId : String)
  | postBook (body : BookData)
  | deleteBookReq (bookId : String)
  | checkBook (bookId : String)
  | markRead (notificationId : String)
  | addSiteReq (bookId : String) (url : String)
  | removeSiteReq (bookId : String) (url : String)
  | debugScrape (title author site : String)
  | putSettings (body : Settings)
deriving DecidableEq

/-- HTTP method used at each `fetch` call site. -/
def methodOf : ApiRequest → Method
  | .getBooks => .GET
  | .getNotifications => .GET
  | .getSettings => .GET
  | .getListings _ => .GET
  | .postBook _ => .POST
  | .deleteBookReq _ => .DELETE
  | .checkBook _ => .POST
  | .markRead _ => .PUT
  | .addSiteReq _ _ => .POST
  | .removeSiteReq _ _ => .DELETE
  | .debugScrape _ _ _ => .GET
  | .putSettings _ => .PUT

/-- Path segments after the API base URL at each `fetch` call site. -/
def urlPath : ApiRequest → List String
  | .getBooks => ["api", "books"]
  | .getNotifications => ["api", "notifications"]
  | .getSettings => ["api", "settings"]
  | .getListings bid => ["api", "listings", bid]
  | .postBook _ => ["api", "books"]
  | .deleteBookReq bid => ["api", "books", bid]
  | .checkBook bid => ["api", "books", bid, "check"]
  | .markRead nid => ["api", "notifications", nid, "read"]
  | .addSiteReq bid _ => ["api", "books", bid, "add-site"]
  | .removeSiteReq bid _ => ["api", "books", bid, "remove-site"]
  | .debugScrape _ _ _ => ["api", "debug", "scrape-test"]
  | .putSettings _ => ["api", "settings"]

/-- Whether a request is addressed to the notifications resource. -/
def targetsNotifications (r : ApiRequest) : Bool :=
  decide ((urlPath r).take 2 = ["api", "notifications"])

/-- Whether a request is a manual-check trigger. -/
def isCheckRequest : ApiRequest → Bool
  | .checkBook _ => true
  | _ => false

/-- A request that mutates the notifications resource: addressed to it with
a non-GET method. -/
def isNotificationMutation (r : ApiRequest) : Bool :=
  targetsNotifications r && decide (methodOf r ≠ Method.GET)

/-- The data-bearing component state: `books`, `notifications`, `listings`
and `settings`. -/
structure AppState where
  books : List Book
  notifications : List Notification
  listings : List (String × List Listing)
  settings : Settings
deriving DecidableEq

/-- Outcomes of the awaited network operations, passed to the handlers.
An `Except.error` on a GET means the request or the JSON parse failed; an
`Option Bool` outcome distinguishes a thrown rejection (`none`) from a
response whose `ok` flag is the carried `Bool`; a plain `Bool` records
whether an awaited request that is never `ok`-checked completed without
throwing.  `confirmDelete` is the result of the `window.confirm` dialog. -/
structure FetchEnv where
  booksResp : Except Unit (List Book)
  notifsResp : Except Unit (List Notification)
  settingsResp : Except Unit Settings
  listingsResp : String → Except Unit (List Listing)
  postBookOutcome : Option Bool
  deleteSucceeded : Bool
  checkSucceeded : Bool
  markReadSucceeded : Bool
  addSiteOutcome : Option Bool
  removeSiteOutcome : Option Bool
  confirmDelete : Bool

/-- JS `String.prototype.trim`: strip leading and trailing whitespace. -/
def jsTrim (s : String) : String :=
  String.mk (((s.data.dropWhile Char.isWhitespace).reverse.dropWhile
    Char.isWhitespace).reverse)

/-- JS object spread over the listings map: replace or add one entry. -/
def setListingsEntry (l : List (String × List Listing)) (bookId : String)
    (data : List Listing) : List (String × List Listing) :=
  (l.filter fun p => decide (p.1 ≠ bookId)) ++ [(bookId, data)]

/-- Handler `fetchBooks`: GET the book list; on success replace `books`; a
request or parse failure is caught and leaves the state unchanged. -/
def fetchBooks (resp : Except Unit (List Book)) (st : AppState) :
    AppState × List ApiRequest :=
  (match resp with
   | .ok data => { st with books := data }
   | .error _ => st,
   [ApiRequest.getBooks])

/-- Handler `fetchNotifications`: GET the notification list; on success
replace `notifications`; failure is caught and leaves state unchanged. -/
def fetchNotifications (resp : Except Unit (List Notification))
    (st : AppState) : AppState × List ApiRequest :=
  (match resp with
   | .ok data => { st with notifications := data }
   | .error _ => st,
   [ApiRequest.getNotifications])

/-- Handler `fetchSettings`: GET the settings; on success replace
`settings`; failure is caught and leaves state unchanged. -/
def fetchSettings (resp : Except Unit Settings) (st : AppState) :
    AppState × List ApiRequest :=
  (match resp with
   | .ok data => { st with settings := data }
   | .error _ => st,
   [ApiRequest.getSettings])

/-- Handler `fetchBookListings`: GET one book's listings; on success update
only that book's entry; failure is caught and leaves state unchanged. -/
def fetchBookListings (bookId : String) (resp : Except Unit (List Listing))
    (st : AppState) : AppState × List ApiRequest :=
  (match resp with
   | .ok data => { st with listings := setListingsEntry st.listings bookId data }
   | .error _ => st,
   [ApiRequest.getListings bookId])

/-- `Object.entries(newBook.sites)` in insertion order. -/
def fixedSiteEntries (f : NewBookForm) : List (String × Bool) :=
  [("nadirkitap", f.nadirkitap), ("kitantik", f.kitantik),
   ("halkkitabevi", f.halkkitabevi)]

/-- The payload object built for one enabled fixed site in `addBook`. -/
def mkSitePayload (siteName : String) : SitePayload :=
  { name := siteName
    url := siteName ++ ".com"
    last_check := none
    listings_found := 0 }

/-- `sitesToTrack` inside `addBook`: the enabled fixed sites. -/
def sitesToTrack (f : NewBookForm) : List SitePayload :=
  ((fixedSiteEntries f).filter fun p => p.2).map fun p => mkSitePayload p.1

/-- `bookData` inside `addBook`. -/
def mkBookData (f : NewBookForm) : BookData :=
  { title := f.title
    author := f.author
    sites := sitesToTrack f
    custom_sites := f.custom_sites
    enable_google_search := f.enable_google_search
    is_active := true }

/-- Handler `addBook`: POST the book payload; only when the response is ok,
refresh the book list. -/
def addBook (f : NewBookForm) (env : FetchEnv) (st : AppState) :
    AppState × List ApiRequest :=
  match env.postBookOutcome with
  | some true =>
      let r := fetchBooks env.booksResp st
      (r.1, ApiRequest.postBook (mkBookData f) :: r.2)
  | some false => (st, [ApiRequest.postBook (mkBookData f)])
  | none => (st, [ApiRequest.postBook (mkBookData f)])

/-- Handler `deleteBook`: returns before any request unless the user
confirms; then DELETE the book and refresh the book list. -/
def deleteBook (bookId : String) (env : FetchEnv) (st : AppState) :
    AppState × List ApiRequest :=
  if env.confirmDelete then
    if env.deleteSucceeded then
      let r := fetchBooks env.booksResp st
      (r.1, ApiRequest.deleteBookReq bookId :: r.2)
    else (st, [ApiRequest.deleteBookReq bookId])
  else (st, [])

/-- Handler `manualCheckBook`: POST one check request for the book, then
refresh books, notifications and that book's listings.  The three refresh
handlers catch their own failures, so once the check request itself did not
throw, all three refresh requests are issued. -/
def manualCheckBook (bookId : String) (env : FetchEnv) (st : AppState) :
    AppState × List ApiRequest :=
  if env.checkSucceeded then
    let r1 := fetchBooks env.booksResp st
    let r2 := fetchNotifications env.notifsResp r1.1
    let r3 := fetchBookListings bookId (env.listingsResp bookId) r2.1
    (r3.1, ApiRequest.checkBook bookId :: (r1.2 ++ r2.2 ++ r3.2))
  else (st, [ApiRequest.checkBook bookId])

/-- Handler `markNotificationRead`: PUT the read flag of one notification,
then refresh the notification list. -/
def markNotificationRead (notificationId : String) (env : FetchEnv)
    (st : AppState) : AppState × List ApiRequest :=
  if env.markReadSucceeded then
    let r := fetchNotifications env.notifsResp st
    (r.1, ApiRequest.markRead notificationId :: r.2)
  else (st, [ApiRequest.markRead notificationId])

/-- Handler `addCustomSite`: returns before any request when the input is
empty after trimming; otherwise POST the entered URL and, when the
response is ok, refresh the book list. -/
def addCustomSite (bookId : String) (input : String) (env : FetchEnv)
    (st : AppState) : AppState × List ApiRequest :=
  if jsTrim input = "" then (st, [])
  else
    match env.addSiteOutcome with
    | some true =>
        let r := fetchBooks env.booksResp st
        (r.1, ApiRequest.addSiteReq bookId input :: r.2)
    | some false => (st, [ApiRequest.addSiteReq bookId input])
    | none => (st, [ApiRequest.addSiteReq bookId input])

/-- Handler `removeCustomSite`: DELETE the site URL from the book and, when
the response is ok, refresh the book list. -/
def removeCustomSite (bookId : String) (siteUrl : String) (env : FetchEnv)
    (st : AppState) : AppState × List ApiRequest :=
  match env.removeSiteOutcome with
  | some true =>
      let r := fetchBooks env.booksResp st
      (r.1, ApiRequest.removeSiteReq bookId siteUrl :: r.2)
  | some false => (st, [ApiRequest.removeSiteReq bookId siteUrl])
  | none => (st, [ApiRequest.removeSiteReq bookId siteUrl])

/-- Handler `debugScraping`: GET the diagnostic endpoint; no state change. -/
def debugScraping (title author site : String) (st : AppState) :
    AppState × List ApiRequest :=
  (st, [ApiRequest.debugScrape title author site])

/-- The interval values offered by the settings select element. -/
def intervalSelectOptions : List Int := [1, 3, 6, 12, 24]

/-- The function-valued identifiers declared in the `App` component body
(the `const` handlers of lines 41 to 207). -/
def appFunctionIdentifiers : List String :=
  ["fetchBooks", "fetchNotifications", "fetchSettings", "fetchBookListings",
   "addBook", "deleteBook", "manualCheckBook", "markNotificationRead",
   "addCustomSite", "removeCustomSite", "debugScraping"]

/-- A JavaScript runtime error surfaced by a handler. -/
inductive JsError
  | referenceError (name : String)
deriving DecidableEq

/-- JS `parseInt` applied to a select option value. -/
def parseIntJs (s : String) : Int := (s.toInt?).getD 0

/-- The `onChange` handler of the interval select.  Its body evaluates the
free identifier `updateSettings`, which is not among the identifiers the
component defines (and is not imported), so evaluation throws a
`ReferenceError` before any request is issued.  The `ok` branch carries the
settings-update request the handler would issue if the identifier were
defined; that request is modelled from the spec (set process Settings)
because the source never reaches or defines it. -/
def settingsOnChange (s : Settings) (value : String) :
    Except JsError (List ApiRequest) :=
  if "updateSettings" ∈ appFunctionIdentifiers then
    Except.ok
      [ApiRequest.putSettings { s with check_interval_hours := parseIntJs value }]
  else Except.error (JsError.referenceError "updateSettings")

/-- `unreadCount`: the number of notifications whose read flag is off. -/
def unreadCount (notifications : List Notification) : Nat :=
  (notifications.filter fun n => !n.read).length

/-- The red badge on the notifications tab: carries the unread count when it
is positive and is absent otherwise. -/
def unreadBadge (notifications : List Notification) : Option Nat :=
  if unreadCount notifications > 0 then some (unreadCount notifications)
  else none

/-- Action buttons rendered on a notification card. -/
inductive UiButton
  | viewLink (url : String)
  | markReadButton (notificationId : String)
deriving DecidableEq

/-- The buttons rendered for one notification: the view link always, the
mark-read button only when the notification is unread. -/
def notificationButtons (n : Notification) : List UiButton :=
  [UiButton.viewLink n.listing_url] ++
    (if n.read then [] else [UiButton.markReadButton n.id])

/-- Every user action the presentation layer can perform, with the user
inputs it carries. -/
inductive UserAction
  | loadBooks
  | loadNotifications
  | loadSettings
  | loadListings (bookId : String)
  | submitAddBook (form : NewBookForm)
  | clickDeleteBook (bookId : String)
  | clickManualCheck (bookId : String)
  | clickMarkRead (notificationId : String)
  | submitAddSite (bookId input : String)
  | clickRemoveSite (bookId siteUrl : String)
  | clickDebugScrape (title author site : String)
  | changeInterval (value : String)

/-- Dispatch a user action to its handler.  For `changeInterval` the
handler throws before reaching any `fetch`, so no request is issued. -/
def runAction (a : UserAction) (env : FetchEnv) (st : AppState) :
    AppState × List ApiRequest :=
  match a with
  | .loadBooks => fetchBooks env.booksResp st
  | .loadNotifications => fetchNotifications env.notifsResp st
  | .loadSettings => fetchSettings env.settingsResp st
  | .loadListings bid => fetchBookListings bid (env.listingsResp bid) st
  | .submitAddBook f => addBook f env st
  | .clickDeleteBook bid => deleteBook bid env st
  | .clickManualCheck bid => manualCheckBook bid env st
  | .clickMarkRead nid => markNotificationRead nid env st
  | .submitAddSite bid input => addCustomSite bid input env st
  | .clickRemoveSite bid url => removeCustomSite bid url env st
  | .clickDebugScrape t au si => debugScraping t au si st
  | .changeInterval v =>
      match settingsOnChange st.settings v with
      | .ok reqs => (st, reqs)
      | .error _ => (st, [])

/-- Modelled from the spec: a raw listing produced by a Source Adapter
(section 3), ephemeral and never persisted directly.  The backend that
consumes it is absent from the repository sources. -/
structure RawListing where
  title : String
  price : String
  url : String
  site_name : String
deriving DecidableEq

/-- Modelled from the spec (section 4.1): fingerprint keys are derived from
the normalized title, normalized price and source URL; collisions are
assumed negligible, so the normalized tuple itself serves as the key. -/
abbrev FingerprintKey := String × String × String

/-- Modelled from the spec (section 4.1): case folding and whitespace
collapsing of listing text. -/
def normalizeText (s : String) : String :=
  String.intercalate " "
    (((s.toLower).split Char.isWhitespace).filter fun w => decide (w ≠ ""))

/-- Modelled from the spec (section 4.1): the fingerprint of a raw
listing. -/
def fingerprint (r : RawListing) : FingerprintKey :=
  (normalizeText r.title, normalizeText r.price, r.url)

/-- Modelled from the spec (section 3): the per (Book, Site) state the
Notification Engine reads and writes, namely the fingerprint set of all
listings ever seen and the cumulative found counter. -/
structure SiteState where
  fingerprints : List FingerprintKey
  listings_found : Nat
deriving DecidableEq

/-- Modelled from the spec (section 4.4): a Notification created by the
Notification Engine for one newly detected listing. -/
structure NotificationRec where
  book_title : String
  message : String
  listing_url : String
  read : Bool
deriving DecidableEq

/-- Modelled from the spec (section 4.4): the Notification built for one
new listing, its message composed from the book title and the listing
attributes. -/
def mkNotificationRec (bookTitle : String) (r : RawListing) :
    NotificationRec :=
  { book_title := bookTitle
    message := bookTitle ++ ": " ++ r.title ++ " - " ++ r.price ++ " - " ++ r.site_name
    listing_url := r.url
    read := false }

/-- Modelled from the spec (section 4.4): one step of `reconcile`.  A
listing whose fingerprint is already stored is skipped silently; a new one
adds its fingerprint, bumps the counter and appends a Notification. -/
def reconcileStep (bookTitle : String)
    (acc : SiteState × List NotificationRec) (r : RawListing) :
    SiteState × List NotificationRec :=
  if fingerprint r ∈ acc.1.fingerprints then acc
  else
    ({ fingerprints := fingerprint r :: acc.1.fingerprints
       listings_found := acc.1.listings_found + 1 },
     acc.2 ++ [mkNotificationRec bookTitle r])

/-- Modelled from the spec (section 4.4): `reconcile(Book, Site,
RawListing[])`, returning the updated site state and the Notifications
created in this cycle.  The Notification Engine itself is backend code
absent from the repository sources. -/
def reconcile (bookTitle : String) (site : SiteState)
    (listings : List RawListing) : SiteState × List NotificationRec :=
  listings.foldl (reconcileStep bookTitle) (site, [])

theorem settingsOnChange_throws (s : Settings) (v : String) :
    settingsOnChange s v =
      Except.error (JsError.referenceError "updateSettings") := by
  unfold settingsOnChange
  rw [if_neg (by decide : ¬("updateSettings" ∈ appFunctionIdentifiers))]

theorem reqSafe_all (r : ApiRequest) :
    (methodOf r = Method.DELETE → targetsNotifications r = false) ∧
    (targetsNotifications r = true →
      methodOf r = Method.GET ∨ ∃ nid, r = ApiRequest.markRead nid) := by
  cases r <;>
    refine ⟨fun h => ?_, fun h => ?_⟩ <;>
    first
      | rfl
      | exact Or.inl rfl
      | exact Method.noConfusion h
      | exact Bool.noConfusion h
      | exact Or.inr ⟨_, rfl⟩

theorem fingerprints_grow (bt : String) (ls : List RawListing) :
    ∀ acc : SiteState × List NotificationRec, ∀ fp : FingerprintKey,
      fp ∈ acc.1.fingerprints →
      fp ∈ (ls.foldl (reconcileStep bt) acc).1.fingerprints := by
  induction ls with
  | nil => intro acc fp h; exact h
  | cons r rs ih =>
      intro acc fp h
      rw [List.foldl_cons]
      apply ih
      unfold reconcileStep
      split
      · exact h
      · exact List.mem_cons_of_mem _ h

theorem fingerprint_mem_foldl (bt : String) (ls : List RawListing) :
    ∀ acc : SiteState × List NotificationRec, ∀ r ∈ ls,
      fingerprint r ∈ (ls.foldl (reconcileStep bt) acc).1.fingerprints := by
  induction ls with
  | nil => intro acc r h; cases h
  | cons x xs ih =>
      intro acc r h
      rw [List.foldl_cons]
      rcases List.mem_cons.mp h with rfl | h2
      · refine fingerprints_grow bt xs _ _ ?_
        by_cases hm : fingerprint r ∈ acc.1.fingerprints
        · unfold reconcileStep
          rw [if_pos hm]
          exact hm
        · unfold reconcileStep
          rw [if_neg hm]
          exact List.mem_cons_self _ _
      · exact ih _ r h2

theorem foldl_stable (bt : String) (ls : List RawListing) :
    ∀ acc : SiteState × List NotificationRec,
      (∀ r ∈ ls, fingerprint r ∈ acc.1.fingerprints) →
      ls.foldl (reconcileStep bt) acc = acc := by
  induction ls with
  | nil => intro acc _; rfl
  | cons x xs ih =>
      intro acc h
      rw [List.foldl_cons]
      have hx : reconcileStep bt acc x = acc := by
        unfold reconcileStep
        rw [if_pos (h x (List.mem_cons_self _ _))]
      rw [hx]
      exact ih acc fun r hr => h r (List.mem_cons_of_mem _ hr)

/-- Claim C1: the settings select offers exactly the interval values 1, 3,
6, 12 and 24, but its change handler calls `updateSettings`, an identifier
the component never defines, so every selection throws a `ReferenceError`
and no settings-update request is ever issued.  The code therefore
contradicts the spec, under which Settings are mutated by user action. -/
theorem interval_change_throws_and_issues_no_request :
    intervalSelectOptions = [1, 3, 6, 12, 24] ∧
    (∀ s v, settingsOnChange s v =
      Except.error (JsError.referenceError "updateSettings")) ∧
    (∀ v env st, (runAction (UserAction.changeInterval v) env st).2 = []) := by
  refine ⟨rfl, fun s v => settingsOnChange_throws s v, fun v env st => ?_⟩
  simp [runAction, settingsOnChange_throws st.settings v]

/-- Claim C2: reconciliation is idempotent.  Running `reconcile` a second
time on the same listing batch, starting from the site state the first run
produced, creates no Notification. -/
theorem reconcile_idempotent (bookTitle : String) (site : SiteState)
    (listings : List RawListing) :
    (reconcile bookTitle (reconcile bookTitle site listings).1 listings).2 = [] := by
  unfold reconcile
  have hmem : ∀ r ∈ listings,
      fingerprint r ∈
        (((listings.foldl (reconcileStep bookTitle)
            (site, ([] : List NotificationRec))).1,
          ([] : List NotificationRec))).1.fingerprints :=
    fun r hr => fingerprint_mem_foldl bookTitle listings (site, []) r hr
  rw [foldl_stable bookTitle listings _ hmem]

/-- Claim C3: the mark-read handler sends exactly one notification-mutating
request, addressed to the one notification id it is invoked on, and the
interface renders the mark-read button only for notifications whose read
flag is off, so an already-read notification is never re-flipped from the
interface. -/
theorem mark_read_flips_exactly_one (nid : String) (env : FetchEnv)
    (st : AppState) (n : Notification) :
    ((runAction (UserAction.clickMarkRead nid) env st).2.filter
        isNotificationMutation) = [ApiRequest.markRead nid] ∧
    (UiButton.markReadButton n.id ∈ notificationButtons n ↔ n.read = false) := by
  obtain ⟨br, nr, sr, lr, pbo, ds, cs, mrs, aso, rso, cd⟩ := env
  constructor
  · cases mrs <;> rfl
  · cases hr : n.read <;> simp [notificationButtons, hr]

/-- Claim C4: every submission of the add-book form posts a payload holding
the entered title and author, the custom-site list, the search-fallback
flag, `is_active = true`, and exactly those fixed sites whose checkbox is
enabled, each initialized with no last check and a zero found counter. -/
theorem add_book_payload (f : NewBookForm) (env : FetchEnv) (st : AppState) :
    (mkBookData f).title = f.title ∧
    (mkBookData f).author = f.author ∧
    (mkBookData f).custom_sites = f.custom_sites ∧
    (mkBookData f).enable_google_search = f.enable_google_search ∧
    (mkBookData f).is_active = true ∧
    (mkBookData f).sites =
      ((if f.nadirkitap then [mkSitePayload "nadirkitap"] else []) ++
       (if f.kitantik then [mkSitePayload "kitantik"] else []) ++
       (if f.halkkitabevi then [mkSitePayload "halkkitabevi"] else [])) ∧
    (∀ s ∈ (mkBookData f).sites, s.last_check = none ∧ s.listings_found = 0) ∧
    ApiRequest.postBook (mkBookData f) ∈
      (runAction (UserAction.submitAddBook f) env st).2 := by
  refine ⟨rfl, rfl, rfl, rfl, rfl, ?_, ?_, ?_⟩
  · obtain ⟨t, au, nk, kt, hk, g, cs⟩ := f
    cases nk <;> cases kt <;> cases hk <;> rfl
  · intro s hs
    rcases List.mem_map.mp hs with ⟨p, hp, rfl⟩
    exact ⟨rfl, rfl⟩
  · obtain ⟨br, nr, sr, lr, pbo, ds, cs2, mrs, aso, rso, cd⟩ := env
    rcases pbo with _ | b
    · exact List.mem_cons_self _ _
    · cases b <;> exact List.mem_cons_self _ _

/-- Witness for claim C4 at a concrete form, environment and state. -/
theorem add_book_payload_witness :
    (mkSitePayload "nadirkitap").last_check = none ∧
    (mkSitePayload "nadirkitap").listings_found = 0 :=
  (add_book_payload
      ⟨"Tutunamayanlar", "Oguz Atay", true, false, true, true, ["example.com"]⟩
      ⟨Except.error (), Except.error (), Except.error (),
       fun _ => Except.error (), none, false, false, false, none, none, false⟩
      ⟨[], [], [], ⟨6⟩⟩).2.2.2.2.2.2.1
    (mkSitePayload "nadirkitap") (by decide)

/-- Claim C5: a manual check issues exactly one check request, addressed to
the invoked book's id, and when that request goes through it is followed by
a refresh of the book list, the notification list and that book's
listings. -/
theorem manual_check_requests (bid : String) (env : FetchEnv) (st : AppState) :
    ((runAction (UserAction.clickManualCheck bid) env st).2.filter
        isCheckRequest) = [ApiRequest.checkBook bid] ∧
    (env.checkSucceeded = true →
      (runAction (UserAction.clickManualCheck bid) env st).2 =
        [ApiRequest.checkBook bid, ApiRequest.getBooks,
         ApiRequest.getNotifications, ApiRequest.getListings bid]) := by
  obtain ⟨br, nr, sr, lr, pbo, ds, cs, mrs, aso, rso, cd⟩ := env
  cases cs
  · exact ⟨rfl, fun h => Bool.noConfusion h⟩
  · exact ⟨rfl, fun _ => rfl⟩

/-- Witness for claim C5 at a concrete book id, environment and state. -/
theorem manual_check_requests_witness :
    (runAction (UserAction.clickManualCheck "b1")
        ⟨Except.error (), Except.error (), Except.error (),
         fun _ => Except.error (), none, false, true, false, none, none, false⟩
        ⟨[], [], [], ⟨6⟩⟩).2 =
      [ApiRequest.checkBook "b1", ApiRequest.getBooks,
       ApiRequest.getNotifications, ApiRequest.getListings "b1"] :=
  (manual_check_requests "b1"
      ⟨Except.error (), Except.error (), Except.error (),
       fun _ => Except.error (), none, false, true, false, none, none, false⟩
      ⟨[], [], [], ⟨6⟩⟩).2 rfl

/-- Claim C6: across every user action the presentation layer can perform,
no issued request deletes a notification, and the only non-GET request ever
addressed to the notifications resource is the mark-read update. -/
theorem no_notification_deletion_requests :
    ∀ (a : UserAction) (env : FetchEnv) (st : AppState),
      ∀ r ∈ (runAction a env st).2,
        (methodOf r = Method.DELETE → targetsNotifications r = false) ∧
        (targetsNotifications r = true →
          methodOf r = Method.GET ∨ ∃ nid, r = ApiRequest.markRead nid) := by
  intro a env st r _
  exact reqSafe_all r

/-- Witness for claim C6 at a concrete action, environment, state and
request. -/
theorem no_notification_deletion_requests_witness :
    (methodOf (ApiRequest.markRead "n1") = Method.DELETE →
      targetsNotifications (ApiRequest.markRead "n1") = false) ∧
    (targetsNotifications (ApiRequest.markRead "n1") = true →
      methodOf (ApiRequest.markRead "n1") = Method.GET ∨
        ∃ nid, ApiRequest.markRead "n1" = ApiRequest.markRead nid) :=
  no_notification_deletion_requests (UserAction.clickMarkRead "n1")
    ⟨Except.error (), Except.error (), Except.error (),
     fun _ => Except.error (), none, false, false, true, none, none, false⟩
    ⟨[], [], [], ⟨6⟩⟩
    (ApiRequest.markRead "n1") (by decide)

/-- Claim C7: the delete-book action issues the deletion request for the
book's id only after the user confirms; when confirmation is declined, no
request is issued and the whole component state, the tracked-book list
included, is unchanged. -/
theorem delete_book_only_on_confirm (bid : String) (env : FetchEnv)
    (st : AppState) :
    (env.confirmDelete = false →
      runAction (UserAction.clickDeleteBook bid) env st = (st, [])) ∧
    (env.confirmDelete = true →
      ApiRequest.deleteBookReq bid ∈
        (runAction (UserAction.clickDeleteBook bid) env st).2) := by
  obtain ⟨br, nr, sr, lr, pbo, ds, cs, mrs, aso, rso, cd⟩ := env
  cases cd
  · exact ⟨fun _ => rfl, fun h => Bool.noConfusion h⟩
  · refine ⟨fun h => Bool.noConfusion h, fun _ => ?_⟩
    cases ds
    · exact List.mem_cons_self _ _
    · exact List.mem_cons_self _ _

/-- Witness for claim C7: a declined confirmation issues nothing and leaves
the state unchanged; a confirmed one issues the deletion request. -/
theorem delete_book_only_on_confirm_witness :
    runAction (UserAction.clickDeleteBook "b1")
        ⟨Except.error (), Except.error (), Except.error (),
         fun _ => Except.error (), none, false, false, false, none, none, false⟩
        ⟨[], [], [], ⟨6⟩⟩ = (⟨[], [], [], ⟨6⟩⟩, []) ∧
    ApiRequest.deleteBookReq "b1" ∈
      (runAction (UserAction.clickDeleteBook "b1")
          ⟨Except.error (), Except.error (), Except.error (),
           fun _ => Except.error (), none, true, false, false, none, none, true⟩
          ⟨[], [], [], ⟨6⟩⟩).2 :=
  ⟨(delete_book_only_on_confirm "b1"
      ⟨Except.error (), Except.error (), Except.error (),
       fun _ => Except.error (), none, false, false, false, none, none, false⟩
      ⟨[], [], [], ⟨6⟩⟩).1 rfl,
   (delete_book_only_on_confirm "b1"
      ⟨Except.error (), Except.error (), Except.error (),
       fun _ => Except.error (), none, true, false, false, none, none, true⟩
      ⟨[], [], [], ⟨6⟩⟩).2 rfl⟩

/-- Claim C8: the add-custom-site action issues no request when the input
is blank after trimming, issues an add request carrying the entered URL
otherwise, and the remove-custom-site action issues a removal request
carrying the site URL. -/
theorem custom_site_requests (bid input url : String) (env : FetchEnv)
    (st : AppState) :
    (jsTrim input = "" →
      (runAction (UserAction.submitAddSite bid input) env st).2 = []) ∧
    (jsTrim input ≠ "" →
      ApiRequest.addSiteReq bid input ∈
        (runAction (UserAction.submitAddSite bid input) env st).2) ∧
    ApiRequest.removeSiteReq bid url ∈
      (runAction (UserAction.clickRemoveSite bid url) env st).2 := by
  obtain ⟨br, nr, sr, lr, pbo, ds, cs, mrs, aso, rso, cd⟩ := env
  refine ⟨fun h => ?_, fun h => ?_, ?_⟩
  · simp [runAction, addCustomSite, h]
  · rcases aso with _ | b
    · simp [runAction, addCustomSite, h]
    · cases b <;> simp [runAction, addCustomSite, h]
  · rcases rso with _ | b
    · simp [runAction, removeCustomSite]
    · cases b <;> simp [runAction, removeCustomSite]

/-- Witness for claim C8: a whitespace-only input issues nothing; a
non-blank input issues the add request with the entered URL. -/
theorem custom_site_requests_witness :
    (runAction (UserAction.submitAddSite "b1" "   ")
        ⟨Except.error (), Except.error (), Except.error (),
         fun _ => Except.error (), none, false, false, false, none, none, false⟩
        ⟨[], [], [], ⟨6⟩⟩).2 = [] ∧
    ApiRequest.addSiteReq "b1" " example.com " ∈
      (runAction (UserAction.submitAddSite "b1" " example.com ")
          ⟨Except.error (), Except.error (), Except.error (),
           fun _ => Except.error (), none, false, false, false, none, none, false⟩
          ⟨[], [], [], ⟨6⟩⟩).2 :=
  ⟨(custom_site_requests "b1" "   " "u"
      ⟨Except.error (), Except.error (), Except.error (),
       fun _ => Except.error (), none, false, false, false, none, none, false⟩
      ⟨[], [], [], ⟨6⟩⟩).1 (by decide),
   (custom_site_requests "b1" " example.com " "u"
      ⟨Except.error (), Except.error (), Except.error (),
       fun _ => Except.error (), none, false, false, false, none, none, false⟩
      ⟨[], [], [], ⟨6⟩⟩).2.1 (by decide)⟩

/-- Claim C9: the unread badge count equals the number of notifications
whose read flag is off, and the badge is rendered only when that count is
positive. -/
theorem unread_badge_count (ns : List Notification) :
    unreadCount ns = (ns.filter fun n => n.read = false).length ∧
    (∀ c, unreadBadge ns = some c → 0 < c ∧ c = unreadCount ns) ∧
    (unreadBadge ns = none ↔ unreadCount ns = 0) := by
  refine ⟨?_, fun c hc => ?_, ?_⟩
  · unfold unreadCount
    congr 1
    apply List.filter_congr
    intro n _
    cases hb : n.read <;> rfl
  · unfold unreadBadge at hc
    split at hc
    · obtain rfl := Option.some.inj hc
      constructor
      · omega
      · rfl
    · exact Option.noConfusion hc
  · unfold unreadBadge
    split
    · refine ⟨fun h1 => Option.noConfusion h1, fun h0 => ?_⟩
      omega
    · refine ⟨fun _ => ?_, fun _ => rfl⟩
      omega

/-- Witness for claim C9 at a concrete one-element notification list. -/
theorem unread_badge_count_witness :
    0 < 1 ∧ 1 = unreadCount [⟨"n1", "B", "m", "u", false, "t"⟩] :=
  (unread_badge_count [⟨"n1", "B", "m", "u", false, "t"⟩]).2.1 1 rfl

/-- Claim C10: each fetch handler is a total function that contains its own
failure: when the request or the JSON parse fails, the corresponding
component state is left unchanged. -/
theorem fetch_failures_leave_state_unchanged (st : AppState) (bid : String) :
    (fetchBooks (Except.error ()) st).1 = st ∧
    (fetchNotifications (Except.error ()) st).1 = st ∧
    (fetchSettings (Except.error ()) st).1 = st ∧
    (fetchBookListings bid (Except.error ()) st).1 = st :=
  ⟨rfl, rfl, rfl, rfl⟩
